import Mathlib

/-!
Verification development for the HealthBuddy triage core
(src/HealthBuddy.py).

The embedding works over `List Char` as the text type.  Python string
operations are modelled at the ASCII level (`str.lower` as `Char.toLower`,
`str.strip` as dropping `Char.isWhitespace` at both ends, `str.split` as
splitting on `Char.isWhitespace`).  Characters outside this repertoire are
treated as opaque symbols, with one deliberate exception: the superscript
digits U+00B9, U+00B2, U+00B3 model Python's digit-category characters that
`str.isdigit` accepts but `int()` rejects (the Python documentation for
`str.isdigit` states it covers characters with `Numeric_Type=Digit`, such
as superscripts, while `int()` only accepts decimal digits).  Consequently
`parse_age_and_duration` — and hence `triage`, which calls it first — can
raise `ValueError` in Python; the embedding returns `Except Unit _`, with
`Except.error ()` modelling the raised exception.
-/

namespace HealthBuddy

/-- Python `str.lower`, modelled characterwise at the ASCII level. -/
def pyLower (s : List Char) : List Char := s.map Char.toLower

/-- Python `str.strip` with no arguments: remove whitespace at both ends. -/
def pyStrip (s : List Char) : List Char :=
  ((s.dropWhile Char.isWhitespace).reverse.dropWhile Char.isWhitespace).reverse

/-- The text normalisation performed at the top of `triage`
(line 137: `t = (text or "").lower().strip()`). -/
def normText (text : List Char) : List Char := pyStrip (pyLower text)

/-- `beginsWith s p` is Python `s.startswith(p)`. -/
def beginsWith : List Char → List Char → Bool
  | _, [] => true
  | [], _ :: _ => false
  | c :: cs, d :: ds => c == d && beginsWith cs ds

/-- `strHas t sub` is Python `sub in t` (substring containment). -/
def strHas : List Char → List Char → Bool
  | [], sub => sub.isEmpty
  | c :: rest, sub => beginsWith (c :: rest) sub || strHas rest sub

/-- A regex word character (Python's Unicode `\w`): alphanumeric or
underscore.  On the modelled repertoire this is ASCII alphanumerics, the
underscore, and the superscript digits U+00B9, U+00B2, U+00B3 — Python
treats the latter as word characters (their `str.isalnum()` is true and
`re.search` finds no `\b` boundary next to them). -/
def isWordChar (c : Char) : Bool :=
  c.isAlphanum || c == '_' || c == '¹' || c == '²' || c == '³'

/-- A match of the pattern `w` (made of word characters) at the current
position of `s`, with `\b` boundaries on both sides; `prev` is the
character immediately before the current position, if any. -/
def matchHere (w : List Char) (prev : Option Char) (s : List Char) : Bool :=
  beginsWith s w
    && (match prev with | some p => !isWordChar p | none => true)
    && (match (s.drop w.length).head? with | some c => !isWordChar c | none => true)

/-- Scan every position of `s` for a `\b w \b` match. -/
def standaloneAux (w : List Char) (prev : Option Char) : List Char → Bool
  | [] => matchHere w prev []
  | c :: rest => matchHere w prev (c :: rest) || standaloneAux w (some c) rest

/-- Python `bool(re.search(r"\b w \b", t))` for a pattern `w` consisting of
word characters. -/
def standalone (t w : List Char) : Bool := standaloneAux w none t

/-- Python `bool(re.search(r"\b(3|three)\b", t))` (line 154). -/
def reSearch3orThree (t : List Char) : Bool :=
  standalone t "3".data || standalone t "three".data

/-- Python `str.split()` on whitespace, dropping empty tokens;
`acc` accumulates the current token in reverse. -/
def splitWsAux : List Char → List Char → List (List Char)
  | [], acc => if acc.isEmpty then [] else [acc.reverse]
  | c :: rest, acc =>
    if c.isWhitespace then
      (if acc.isEmpty then splitWsAux rest [] else acc.reverse :: splitWsAux rest [])
    else splitWsAux rest (c :: acc)

/-- The token list of `parse_age_and_duration` (lines 120, 123):
lower-case, replace `/` by a space, split on whitespace. -/
def tokensOf (t : List Char) : List (List Char) :=
  splitWsAux ((pyLower t).map (fun c => if c == '/' then ' ' else c)) []

/-- Python `str.isdigit` on a character: decimal digits plus the modelled
digit-category characters that are not decimal (superscript digits). -/
def pyIsDigitChar (c : Char) : Bool := c.isDigit || c == '¹' || c == '²' || c == '³'

/-- Python `tok.isdigit()`: nonempty and all characters digit-category. -/
def pyIsDigitTok (tok : List Char) : Bool := !tok.isEmpty && tok.all pyIsDigitChar

/-- Numeric value of a string of decimal digits. -/
def tokToNat (tok : List Char) : Nat := tok.foldl (fun a c => a * 10 + (c.toNat - 48)) 0

/-- Python `int(tok)`: succeeds exactly on nonempty strings of decimal
digits (within the modelled repertoire); on digit-category characters such
as `²` it raises `ValueError`, modelled by `none`. -/
def pyInt (tok : List Char) : Option Nat :=
  if !tok.isEmpty && tok.all Char.isDigit then some (tokToNat tok) else none

/-- Python `" ".join(l)`. -/
def joinSpace : List (List Char) → List Char
  | [] => []
  | [w] => w
  | w :: x :: rest => w ++ ' ' :: joinSpace (x :: rest)

/-- The 3-token window `" ".join(tokens[max(0, i-1): i+2])` of line 128,
expressed with the previous token (if any), the current token, and the
following token (if any). -/
def windowAt (prev : Option (List Char)) (tok : List Char) (rest : List (List Char)) :
    List Char :=
  joinSpace (prev.toList ++ tok :: rest.take 1)

/-- The age keywords of line 129. -/
def AGE_WORDS : List String := ["year", "years", "yr", "y/o"]

/-- The token loop of `parse_age_and_duration` (lines 124-132), carrying the
previous token and the current age/duration candidates.  A token that is
digit-category but not decimal makes Python's `int(tok)` raise `ValueError`,
modelled as `Except.error ()`. -/
def parseLoopS (prev : Option (List Char)) :
    List (List Char) → Option Nat → Option Nat → Except Unit (Option Nat × Option Nat)
  | [], age, dur => Except.ok (age, dur)
  | tok :: rest, age, dur =>
    if pyIsDigitTok tok then
      match pyInt tok with
      | none => Except.error ()
      | some n =>
        parseLoopS (some tok) rest
          (if 0 < n ∧ n < 120 ∧
              AGE_WORDS.any (fun k => strHas (windowAt prev tok rest) k.data) = true
           then some n else age)
          (match rest.head? with
           | some nxt => if beginsWith nxt "day".data then some n else dur
           | none => dur)
    else parseLoopS (some tok) rest age dur

/-- `parse_age_and_duration` (lines 119-133). -/
def parse_age_and_duration (t : List Char) :
    Except Unit (Option Nat × Option Nat) :=
  parseLoopS none (tokensOf t) none none

/-- A knowledge-base value: either a single advisory string or a list of
advice bullets (the two value shapes of the `KB` dict). -/
inductive KBVal where
  | str (s : String)
  | list (l : List String)
deriving DecidableEq

/-- The default knowledge base of lines 49-98, as a total map from keys to
values; keys outside the table (never consulted by `triage`) map to an
empty advisory string. -/
def KB : String → KBVal := fun k =>
  if k = "emergency_msg" then
    .str "This may be an emergency. Call 108 immediately. Do not delay."
  else if k = "fever_3d_msg" then
    .str "Fever for ≥3 days may need evaluation. Consult telemedicine/clinic within 24h."
  else if k = "fallback_msg" then
    .str "Symptoms unclear. For safety, consider contacting a clinician or visiting a clinic."
  else if k = "selfcare_headache" then
    .list ["Rest in a quiet, dark room.",
           "Hydrate with water or oral rehydration solution.",
           "Limit screens; consider paracetamol as per label if needed.",
           "Seek care if headache becomes severe or there is confusion or weakness."]
  else if k = "selfcare_cough" then
    .list ["Sip warm fluids with honey/lemon (if not allergic).",
           "Try steam inhalation for congestion.",
           "Avoid smoke/irritants; rest well.",
           "Seek care if breathing worsens, high fever appears, or cough lasts >2 weeks."]
  else if k = "moderate_general" then
    .list ["Consult a clinician within 24–48 hours (telemedicine or clinic).",
           "Continue fluids and rest; track temperature and symptoms.",
           "Prepare a brief symptom timeline (onset, duration, severity) for the visit."]
  else if k = "moderate_fever3" then
    .list ["Arrange a telemedicine/clinic visit within 24 hours.",
           "Stay hydrated; use temperature control (tepid sponging, light clothing).",
           "Record temperatures and new symptoms to share with the clinician."]
  else if k = "urgent_general" then
    .list ["Visit a clinic today for evaluation.",
           "Avoid heavy exertion; arrange transport if feeling weak/dizzy.",
           "Bring a medication list and known conditions."]
  else if k = "urgent_pediatric_fever3" then
    .list ["Take the child to a pediatric clinic today.",
           "Offer frequent small fluids; check temperature regularly.",
           "Watch for red flags (lethargy, poor feeding, breathing difficulty)."]
  else if k = "emergency_general" then
    .list ["Call 108 now or go to the nearest emergency department.",
           "Do not drive yourself; have someone accompany you if possible.",
           "Bring ID and any current medications."]
  else .str ""

/-- `RED_FLAGS` (line 117). -/
def RED_FLAGS : List String :=
  ["chest pain", "difficulty breathing", "severe bleeding", "unconscious",
   "confusion", "blue lips"]

/-- The module-level `RULES` dict (lines 103-115), parameterised by the
knowledge base used to build the `Emergency` messages at module load. -/
def RULES (kb : String → KBVal) : List (String × (String × KBVal)) :=
  [("chest pain", ("Emergency", kb "emergency_msg")),
   ("difficulty breathing", ("Emergency", kb "emergency_msg")),
   ("bleeding", ("Emergency", kb "emergency_msg")),
   ("weakness", ("Emergency", kb "emergency_msg")),
   ("sore throat", ("Moderate", .str "Consider a clinic/telemedicine visit within 24–48h.")),
   ("stomach pain", ("Moderate", .str "Monitor and consult if it persists or worsens within 24–48h.")),
   ("child fever", ("Urgent", .str "Please take the child to the nearest clinic today.")),
   ("dizzy", ("Urgent", .str "See a doctor today for further evaluation.")),
   ("headache", ("Self-care", .str "Safe to try self‑care now.")),
   ("cough", ("Self-care", .str "Safe to try self‑care now."))]

/-- The decision tuple returned by `triage` (first component of the pair),
together with the reason code (second component of the pair in Python). -/
structure Decision where
  tier : String
  headline : KBVal
  routes : List String
  age : Option Int
  duration : Option Int
  severity : Option String
  advice : KBVal
  reason : String
deriving DecidableEq

/-- Override application of lines 139-142: an override that is present and
strictly positive replaces the text-derived value entirely; otherwise the
text-derived value stays in effect. -/
def resolveOverride (ov : Option Int) (extracted : Option Nat) : Option Int :=
  match ov with
  | some v => if 0 < v then some v else extracted.map Int.ofNat
  | none => extracted.map Int.ofNat

/-- `three_days_digit` (line 154): a standalone `3` or `three` token and a
`day`/`days` substring anywhere in the text. -/
def three_days_digit (t : List Char) : Bool :=
  reSearch3orThree t && (strHas t "day".data || strHas t "days".data)

/-- The condition of the fever-duration gate (lines 153-156):
`fever and (three_days_digit or long_duration)`. -/
def fever_cond (t : List Char) (duration : Option Int) : Bool :=
  strHas t "fever".data &&
    (three_days_digit t ||
      (match duration with | some d => decide (3 ≤ d) | none => false))

/-- The pediatric test of line 157: `age is not None and age < 5`. -/
def pediatricAge : Option Int → Bool
  | some a => decide (a < 5)
  | none => false

/-- `ordered_rules` (lines 174-179). -/
def ordered_rules : List (String × List String) :=
  [("emergency", ["chest pain", "difficulty breathing", "severe bleeding",
                  "unconscious", "weakness"]),
   ("urgent", ["dizzy", "child fever"]),
   ("moderate", ["sore throat", "stomach pain"]),
   ("selfcare", ["headache", "cough"])]

/-- The double loop of lines 180-182: scan tier groups in order, and within
each group scan its keywords in order; the first keyword contained in `t`
wins. -/
def findRule (t : List Char) : List (String × List String) → Option (String × String)
  | [] => none
  | (level, keys) :: rest =>
    match keys.find? (fun key => strHas t key.data) with
    | some key => some (level, key)
    | none => findRule t rest

/-- All (level, keyword) pairs of `ordered_rules`, in scan order. -/
def rulePairs : List (String × String) :=
  ordered_rules.flatMap (fun g => g.2.map (fun k => (g.1, k)))

/-- The per-level decision bundles of lines 183-191. -/
def ruleDecision (kb : String → KBVal) (level key : String)
    (age duration : Option Int) (severity : Option String) : Decision :=
  if level = "emergency" then
    ⟨"Emergency", kb "emergency_msg", ["Call 108", "Find nearest ER"],
     age, duration, severity, kb "emergency_general", "rule:" ++ level ++ ":" ++ key⟩
  else if level = "urgent" then
    ⟨"Urgent", .str "See a doctor today for further evaluation.",
     ["Find nearby clinic", "Call clinic"],
     age, duration, severity, kb "urgent_general", "rule:" ++ level ++ ":" ++ key⟩
  else if level = "moderate" then
    ⟨"Moderate", .str "Consider a clinic/telemedicine visit within 24–48h.",
     ["Open telemedicine", "Find nearby clinic"],
     age, duration, severity, kb "moderate_general", "rule:" ++ level ++ ":" ++ key⟩
  else
    ⟨"Self-care", .str "Safe to try self‑care now.", ["Self-care tips"],
     age, duration, severity,
     (if key = "headache" then kb "selfcare_headache" else kb "selfcare_cough"),
     "rule:" ++ level ++ ":" ++ key⟩

/-- The gate cascade of `triage` after hint resolution (lines 144-197):
red flags, then the fever-duration gate, then the ordered keyword scan,
then the fallback. -/
def triageCore (kb : String → KBVal) (t : List Char)
    (age duration : Option Int) (severity : Option String) : Decision :=
  match RED_FLAGS.find? (fun rf => strHas t rf.data) with
  | some rf =>
    ⟨"Emergency", kb "emergency_msg", ["Call 108", "Find nearest ER"],
     age, duration, severity, kb "emergency_general", "red_flag:" ++ rf⟩
  | none =>
    if fever_cond t duration then
      if pediatricAge age then
        ⟨"Urgent", .str "Child with fever ≥3 days should be seen today.",
         ["Find nearby clinic", "Call clinic"],
         age, duration, severity, kb "urgent_pediatric_fever3",
         "rule:fever_3_days_pediatric"⟩
      else
        ⟨"Moderate", kb "fever_3d_msg", ["Open telemedicine", "Find nearby clinic"],
         age, duration, severity, kb "moderate_fever3", "rule:fever_3_days"⟩
    else
      match findRule t ordered_rules with
      | some lk => ruleDecision kb lk.1 lk.2 age duration severity
      | none =>
        ⟨"Unknown", kb "fallback_msg", ["Open telemedicine", "Find nearby clinic"],
         age, duration, severity, .list [], "fallback"⟩

/-- `triage` (lines 136-197): normalise the text, extract hints (which can
raise, modelled by `Except.error ()`), apply overrides, then run the gate
cascade. -/
def triage (kb : String → KBVal) (text : List Char)
    (age_override duration_override : Option Int) (severity : Option String) :
    Except Unit Decision :=
  match parse_age_and_duration (normText text) with
  | Except.error e => Except.error e
  | Except.ok ad =>
    Except.ok (triageCore kb (normText text)
      (resolveOverride age_override ad.1) (resolveOverride duration_override ad.2)
      severity)

/-- Python truthiness of a KB value (`if v` in the dict comprehension of
line 100): a nonempty string or a nonempty list. -/
def truthy : KBVal → Bool
  | .str s => !s.isEmpty
  | .list l => !l.isEmpty

/-- `load_kb` (lines 24-31): the override source is either a decoded
mapping, or absent/malformed (`none`), which yields the empty mapping. -/
def load_kb (source : Option (List (String × KBVal))) : List (String × KBVal) :=
  match source with
  | some m => m
  | none => []

/-- `KB.update({k: v for k, v in kb_overrides.items() if v})` (line 100):
fold the truthy override bindings onto the defaults, later bindings
overwriting earlier ones. -/
def mergeKB (defaults : String → Option KBVal) (overrides : List (String × KBVal)) :
    String → Option KBVal :=
  overrides.foldl
    (fun m kv => if truthy kv.2 then (fun k => if k = kv.1 then some kv.2 else m k) else m)
    defaults

/-- The value that wins for key `k` under the merge: the last binding of `k`
in the override list whose value is truthy, if any. -/
def lastTruthyVal : List (String × KBVal) → String → Option KBVal
  | [], _ => none
  | kv :: rest, k =>
    match lastTruthyVal rest k with
    | some w => some w
    | none => if k = kv.1 ∧ truthy kv.2 = true then some kv.2 else none

/-- Specification-side age extraction, following the spec's words: the list
of age candidates in scan order — each numeric token whose value `n`
satisfies `0 < n < 120` and whose 3-token window contains an age keyword —
of which the last wins. -/
def ageCands (prev : Option (List Char)) : List (List Char) → List Nat
  | [] => []
  | tok :: rest =>
    (match pyInt tok with
     | some n =>
       if 0 < n ∧ n < 120 ∧
          AGE_WORDS.any (fun k => strHas (windowAt prev tok rest) k.data) = true
       then [n] else []
     | none => []) ++ ageCands (some tok) rest

/-- Specification-side duration extraction: the list of duration candidates
in scan order — each numeric token immediately followed by a token starting
with "day" — of which the last wins. -/
def durCands : List (List Char) → List Nat
  | [] => []
  | tok :: rest =>
    (match pyInt tok with
     | some n =>
       match rest.head? with
       | some nxt => if beginsWith nxt "day".data then [n] else []
       | none => []
     | none => []) ++ durCands rest

/-- Last element of a candidate list, or a default. -/
def lastOr (l : List Nat) (dflt : Option Nat) : Option Nat :=
  match l.getLast? with
  | some n => some n
  | none => dflt

/-- Specification-side age result: last age candidate of the token list. -/
def age_spec (t : List Char) : Option Nat := lastOr (ageCands none (tokensOf t)) none

/-- Specification-side duration result: last duration candidate. -/
def dur_spec (t : List Char) : Option Nat := lastOr (durCands (tokensOf t)) none

/-- Replace the user-severity field of a decision, leaving every other
field unchanged. -/
def setSeverity (s : Option String) (d : Decision) : Decision :=
  { d with severity := s }

lemma triage_ok (kb : String → KBVal) (text : List Char)
    (ao dov : Option Int) (sev : Option String) (a0 d0 : Option Nat)
    (h : parse_age_and_duration (normText text) = Except.ok (a0, d0)) :
    triage kb text ao dov sev =
      Except.ok (triageCore kb (normText text)
        (resolveOverride ao a0) (resolveOverride dov d0) sev) := by
  unfold triage
  rw [h]

lemma triage_error (kb : String → KBVal) (text : List Char)
    (ao dov : Option Int) (sev : Option String)
    (h : parse_age_and_duration (normText text) = Except.error ()) :
    triage kb text ao dov sev = Except.error () := by
  unfold triage
  rw [h]

lemma mergeKB_eq (ov : List (String × KBVal)) (d : String → Option KBVal)
    (k : String) :
    mergeKB d ov k =
      (match lastTruthyVal ov k with
       | some v => some v
       | none => d k) := by
  induction ov generalizing d with
  | nil => rfl
  | cons kv rest ih =>
    have hstep : mergeKB d (kv :: rest) =
        mergeKB (if truthy kv.2 then
                   (fun k' => if k' = kv.1 then some kv.2 else d k')
                 else d) rest := rfl
    rw [hstep, ih]
    cases hl : lastTruthyVal rest k with
    | some w => simp [lastTruthyVal, hl]
    | none =>
      simp only [lastTruthyVal, hl]
      by_cases ht : truthy kv.2 = true
      · by_cases hk : k = kv.1
        · simp [ht, hk]
        · simp [ht, hk]
      · simp only [Bool.not_eq_true] at ht
        simp [ht]

lemma pyInt_eq_none (tok : List Char) (h : pyIsDigitTok tok = false) :
    pyInt tok = none := by
  unfold pyInt
  rw [if_neg]
  intro hc
  rw [Bool.and_eq_true, List.all_eq_true] at hc
  have : pyIsDigitTok tok = true := by
    unfold pyIsDigitTok
    rw [Bool.and_eq_true, List.all_eq_true]
    exact ⟨hc.1, fun c hcmem => by
      unfold pyIsDigitChar
      rw [Bool.or_eq_true, Bool.or_eq_true, Bool.or_eq_true]
      exact Or.inl (Or.inl (Or.inl (hc.2 c hcmem)))⟩
  rw [this] at h
  exact Bool.noConfusion h

lemma lastOr_cons (x : Nat) (l : List Nat) (dflt : Option Nat) :
    lastOr (x :: l) dflt = lastOr l (some x) := by
  cases l with
  | nil => rfl
  | cons y l' =>
    unfold lastOr
    rw [List.getLast?_cons_cons]
    cases hg : (y :: l').getLast? with
    | none =>
      exact absurd hg (by simp [List.getLast?_eq_none_iff])
    | some z => rfl

lemma lastOr_append (xs ys : List Nat) (dflt : Option Nat) :
    lastOr (xs ++ ys) dflt = lastOr ys (lastOr xs dflt) := by
  induction xs generalizing dflt with
  | nil => rfl
  | cons x xs ih =>
    rw [List.cons_append, lastOr_cons, ih, lastOr_cons]

lemma parseLoopS_ok (toks : List (List Char)) (prev : Option (List Char))
    (age dur a d : Option Nat)
    (h : parseLoopS prev toks age dur = Except.ok (a, d)) :
    a = lastOr (ageCands prev toks) age ∧ d = lastOr (durCands toks) dur := by
  induction toks generalizing prev age dur with
  | nil =>
    simp only [parseLoopS, Except.ok.injEq, Prod.mk.injEq] at h
    exact ⟨h.1.symm, h.2.symm⟩
  | cons tok rest ih =>
    by_cases hd : pyIsDigitTok tok = true
    · cases hi : pyInt tok with
      | none =>
        simp only [parseLoopS, hd, if_true, hi] at h
        exact Except.noConfusion h
      | some n =>
        simp only [parseLoopS, hd, if_true, hi] at h
        have hres := ih (some tok) _ _ h
        refine ⟨?_, ?_⟩
        · rw [hres.1]
          simp only [ageCands, hi, lastOr_append]
          by_cases hcond : 0 < n ∧ n < 120 ∧
              AGE_WORDS.any (fun k => strHas (windowAt prev tok rest) k.data) = true
          · rw [if_pos hcond, if_pos hcond]
            rfl
          · rw [if_neg hcond, if_neg hcond]
            rfl
        · rw [hres.2]
          simp only [durCands, hi, lastOr_append]
          cases hnx : rest.head? with
          | none => rfl
          | some nxt =>
            dsimp only
            by_cases hb : beginsWith nxt "day".data = true
            · rw [if_pos hb, if_pos hb]
              rfl
            · rw [if_neg hb, if_neg hb]
              rfl
    · rw [Bool.not_eq_true] at hd
      simp only [parseLoopS, hd, Bool.false_eq_true, if_false] at h
      have hres := ih (some tok) _ _ h
      have hpn : pyInt tok = none := pyInt_eq_none tok hd
      constructor
      · rw [hres.1]
        simp only [ageCands, hpn, List.nil_append]
      · rw [hres.2]
        simp only [durCands, hpn, List.nil_append]

lemma findRule_pairs (rs : List (String × List String)) (t : List Char)
    (l k : String) (h : findRule t rs = some (l, k)) :
    (l, k) ∈ rs.flatMap (fun g => g.2.map (fun k' => (g.1, k'))) := by
  induction rs with
  | nil => exact absurd h (by simp [findRule])
  | cons g rest ih =>
    unfold findRule at h
    cases hf : g.2.find? (fun key => strHas t key.data) with
    | some key =>
      rw [hf] at h
      injection h with h'
      injection h' with h1 h2
      rw [List.flatMap_cons, List.mem_append]
      exact Or.inl (by
        rw [List.mem_map]
        exact ⟨key, List.mem_of_find?_eq_some hf, by rw [h1, h2]⟩)
    | none =>
      rw [hf] at h
      rw [List.flatMap_cons, List.mem_append]
      exact Or.inr (ih h)

lemma findRule_key_strHas (rs : List (String × List String)) (t : List Char)
    (l k : String) (h : findRule t rs = some (l, k)) :
    strHas t k.data = true := by
  induction rs with
  | nil => exact absurd h (by simp [findRule])
  | cons g rest ih =>
    unfold findRule at h
    cases hf : g.2.find? (fun key => strHas t key.data) with
    | some key =>
      rw [hf] at h
      injection h with h'
      injection h' with h1 h2
      rw [← h2]
      simpa using List.find?_some hf
    | none =>
      rw [hf] at h
      exact ih h

lemma ruleDecision_reason (kb : String → KBVal) (l k : String)
    (age dur : Option Int) (sev : Option String) :
    (ruleDecision kb l k age dur sev).reason = "rule:" ++ l ++ ":" ++ k := by
  unfold ruleDecision
  split_ifs <;> rfl

lemma rulePairs_reason_ne :
    ∀ lk ∈ rulePairs,
      ("rule:" ++ lk.1 ++ ":" ++ lk.2 ≠ "rule:fever_3_days_pediatric" ∧
       "rule:" ++ lk.1 ++ ":" ++ lk.2 ≠ "rule:fever_3_days") := by
  decide

lemma triageCore_red (kb : String → KBVal) (t : List Char) (age dur : Option Int)
    (sev : Option String) (rf : String)
    (hrf : RED_FLAGS.find? (fun r => strHas t r.data) = some rf) :
    triageCore kb t age dur sev =
      ⟨"Emergency", kb "emergency_msg", ["Call 108", "Find nearest ER"],
       age, dur, sev, kb "emergency_general", "red_flag:" ++ rf⟩ := by
  unfold triageCore
  rw [hrf]

lemma triageCore_fever_ped (kb : String → KBVal) (t : List Char)
    (age dur : Option Int) (sev : Option String)
    (hrf : RED_FLAGS.find? (fun r => strHas t r.data) = none)
    (hf : fever_cond t dur = true) (hp : pediatricAge age = true) :
    triageCore kb t age dur sev =
      ⟨"Urgent", .str "Child with fever ≥3 days should be seen today.",
       ["Find nearby clinic", "Call clinic"],
       age, dur, sev, kb "urgent_pediatric_fever3", "rule:fever_3_days_pediatric"⟩ := by
  unfold triageCore
  rw [hrf]
  dsimp only
  rw [if_pos hf, if_pos hp]

lemma triageCore_fever_mod (kb : String → KBVal) (t : List Char)
    (age dur : Option Int) (sev : Option String)
    (hrf : RED_FLAGS.find? (fun r => strHas t r.data) = none)
    (hf : fever_cond t dur = true) (hp : pediatricAge age = false) :
    triageCore kb t age dur sev =
      ⟨"Moderate", kb "fever_3d_msg", ["Open telemedicine", "Find nearby clinic"],
       age, dur, sev, kb "moderate_fever3", "rule:fever_3_days"⟩ := by
  unfold triageCore
  rw [hrf]
  dsimp only
  rw [if_pos hf, if_neg (by simp [hp])]

lemma triageCore_rule (kb : String → KBVal) (t : List Char)
    (age dur : Option Int) (sev : Option String) (l k : String)
    (hrf : RED_FLAGS.find? (fun r => strHas t r.data) = none)
    (hf : fever_cond t dur = false)
    (hfind : findRule t ordered_rules = some (l, k)) :
    triageCore kb t age dur sev = ruleDecision kb l k age dur sev := by
  unfold triageCore
  rw [hrf]
  dsimp only
  rw [if_neg (by simp [hf]), hfind]

lemma triageCore_fallback (kb : String → KBVal) (t : List Char)
    (age dur : Option Int) (sev : Option String)
    (hrf : RED_FLAGS.find? (fun r => strHas t r.data) = none)
    (hf : fever_cond t dur = false)
    (hfind : findRule t ordered_rules = none) :
    triageCore kb t age dur sev =
      ⟨"Unknown", kb "fallback_msg", ["Open telemedicine", "Find nearby clinic"],
       age, dur, sev, .list [], "fallback"⟩ := by
  unfold triageCore
  rw [hrf]
  dsimp only
  rw [if_neg (by simp [hf]), hfind]

lemma fever_cond_iff (t : List Char) (dur : Option Int) :
    fever_cond t dur = true ↔
      (strHas t "fever".data = true ∧
        ((reSearch3orThree t = true ∧
            (strHas t "day".data = true ∨ strHas t "days".data = true)) ∨
          ∃ dd : Int, dur = some dd ∧ 3 ≤ dd)) := by
  unfold fever_cond three_days_digit
  cases dur with
  | none => simp [Bool.and_eq_true, Bool.or_eq_true]
  | some dd => simp [Bool.and_eq_true, Bool.or_eq_true, decide_eq_true_eq]

lemma pediatricAge_true_iff (age : Option Int) :
    pediatricAge age = true ↔ ∃ a : Int, age = some a ∧ a < 5 := by
  cases age <;> simp [pediatricAge]

lemma pediatricAge_false_iff (age : Option Int) :
    pediatricAge age = false ↔ ∀ a : Int, age = some a → 5 ≤ a := by
  cases age with
  | none => simp [pediatricAge]
  | some a => simp [pediatricAge, decide_eq_false_iff_not, Int.not_lt]

lemma triageCore_reason_not_fever (kb : String → KBVal) (t : List Char)
    (age dur : Option Int) (sev : Option String)
    (hrf : RED_FLAGS.find? (fun r => strHas t r.data) = none)
    (hf : fever_cond t dur = false) :
    (triageCore kb t age dur sev).reason ≠ "rule:fever_3_days_pediatric" ∧
    (triageCore kb t age dur sev).reason ≠ "rule:fever_3_days" := by
  cases hfr : findRule t ordered_rules with
  | some lk =>
    rw [triageCore_rule kb t age dur sev lk.1 lk.2 hrf hf hfr]
    rw [ruleDecision_reason]
    exact rulePairs_reason_ne (lk.1, lk.2) (findRule_pairs _ _ _ _ hfr)
  | none =>
    rw [triageCore_fallback kb t age dur sev hrf hf hfr]
    exact ⟨(by decide : ("fallback" : String) ≠ "rule:fever_3_days_pediatric"),
           (by decide : ("fallback" : String) ≠ "rule:fever_3_days")⟩

lemma findRule_emergency (t : List Char) (ek : String)
    (hmem : ek ∈ ["chest pain", "difficulty breathing", "severe bleeding",
                  "unconscious", "weakness"])
    (hek : strHas t ek.data = true) :
    ∃ k, findRule t ordered_rules = some ("emergency", k) := by
  have hsome : (["chest pain", "difficulty breathing", "severe bleeding",
      "unconscious", "weakness"].find? (fun key => strHas t key.data)).isSome := by
    rw [List.find?_isSome]
    exact ⟨ek, hmem, hek⟩
  obtain ⟨k, hk⟩ := Option.isSome_iff_exists.mp hsome
  refine ⟨k, ?_⟩
  simp only [ordered_rules, findRule, hk]

lemma triageCore_severity (kb : String → KBVal) (t : List Char)
    (age dur : Option Int) (s1 s2 : Option String) :
    triageCore kb t age dur s1 = setSeverity s1 (triageCore kb t age dur s2) := by
  unfold triageCore
  cases RED_FLAGS.find? (fun rf => strHas t rf.data) with
  | some rf => rfl
  | none =>
    by_cases hf : fever_cond t dur = true <;>
      by_cases hp : pediatricAge age = true <;>
      cases hfr : findRule t ordered_rules <;>
      simp only [hf, hp, hfr, if_true, if_false, Bool.false_eq_true, setSeverity,
        ruleDecision] <;>
      split_ifs <;> rfl

/-- C9: knowledge-base loading merges the override mapping onto the
defaults key by key, overwriting a default only when the override value is
truthy (nonempty), so a blank override never erases a default; a missing or
malformed override source is the empty mapping, leaving the defaults in
effect.  The merge at a key equals the last truthy override binding for
that key when one exists, and the default otherwise. -/
theorem c9_kb_merge (d : String → Option KBVal) (ov : List (String × KBVal))
    (k : String) (v : KBVal) :
    load_kb none = [] ∧
    mergeKB d (load_kb none) k = d k ∧
    (mergeKB d ov k =
      (match lastTruthyVal ov k with
       | some w => some w
       | none => d k)) ∧
    (truthy v = false → mergeKB d [(k, v)] k = d k) ∧
    (truthy v = true → mergeKB d [(k, v)] k = some v) := by
  refine ⟨rfl, rfl, mergeKB_eq ov d k, ?_, ?_⟩
  · intro hv
    rw [mergeKB_eq]
    simp [lastTruthyVal, hv]
  · intro hv
    rw [mergeKB_eq]
    simp [lastTruthyVal, hv]

/-- C9 witness: a blank override for a present key leaves the default in
place, and a nonempty override replaces it. -/
theorem c9_kb_merge_witness :
    mergeKB (fun _ => some (KBVal.str "default")) [("k", KBVal.str "")] "k" =
      some (KBVal.str "default") ∧
    mergeKB (fun _ => some (KBVal.str "default")) [("k", KBVal.str "new")] "k" =
      some (KBVal.str "new") :=
  ⟨(c9_kb_merge (fun _ => some (KBVal.str "default")) [] "k" (KBVal.str "")).2.2.2.1 rfl,
   (c9_kb_merge (fun _ => some (KBVal.str "default")) [] "k" (KBVal.str "new")).2.2.2.2 rfl⟩

/-- C7: the spec claims `parse_age_and_duration` and `triage` never raise
on any input, including arbitrary Unicode text.  The code violates this:
`str.isdigit` is true for digit-category characters such as the superscript
two (U+00B2), but `int()` rejects them, so the guarded `int(tok)` at line
126 raises `ValueError`.  This theorem evaluates the embedded code at the
failing inputs: both the extractor and `triage` (which calls it before any
gate) propagate the exception, modelled as `Except.error ()`. -/
theorem c7_never_raises_violated :
    parse_age_and_duration "²".data = Except.error () ∧
    triage KB "fever ² days".data none none none = Except.error () :=
  ⟨rfl, rfl⟩

/-- C6: the caller-supplied severity is carried through unchanged into the
decision's `userSeverity` field and influences nothing else: for any two
severity values the results agree on every other field (and on whether an
exception is raised), and a successful decision's severity field equals the
severity passed in. -/
theorem c6_severity_noninterference (kb : String → KBVal) (text : List Char)
    (ao dov : Option Int) (s1 s2 : Option String) :
    triage kb text ao dov s1 =
      Except.map (setSeverity s1) (triage kb text ao dov s2) ∧
    (∀ dres : Decision, triage kb text ao dov s1 = Except.ok dres →
      dres.severity = s1) := by
  constructor
  · unfold triage
    cases hp : parse_age_and_duration (normText text) with
    | error e => rfl
    | ok ad =>
      show Except.ok _ = Except.map _ (Except.ok _)
      rw [show ∀ b : Decision, Except.map (setSeverity s1) (Except.ok b) =
            (Except.ok (setSeverity s1 b) : Except Unit Decision) from fun _ => rfl]
      exact congrArg Except.ok (triageCore_severity kb (normText text) _ _ s1 s2)
  · intro dres hres
    unfold triage at hres
    cases hp : parse_age_and_duration (normText text) with
    | error e => rw [hp] at hres; exact Except.noConfusion hres
    | ok ad =>
      rw [hp] at hres
      injection hres with hres'
      rw [← hres']
      have := triageCore_severity kb (normText text)
        (resolveOverride ao ad.1) (resolveOverride dov ad.2) s1 s2
      rw [this]
      rfl

/-- C6 witness: severity is reproduced verbatim in the decision. -/
theorem c6_severity_witness :
    Decision.severity ⟨"Self-care", KBVal.str "Safe to try self‑care now.",
      ["Self-care tips"], none, none, some "Mild", KB "selfcare_headache",
      "rule:selfcare:headache"⟩ = some "Mild" :=
  (c6_severity_noninterference KB "headache".data none none (some "Mild")
    (some "Severe")).2 _ rfl

/-- C5: when extraction succeeds, the decision is computed solely from the
resolved hints, where an override that is present and strictly positive
fully replaces the text-derived value (never a merge), and an absent or
non-positive override leaves the text-derived value in effect. -/
theorem c5_override_replacement (kb : String → KBVal) (text : List Char)
    (ao dov : Option Int) (sev : Option String) (a0 d0 : Option Nat)
    (hok : parse_age_and_duration (normText text) = Except.ok (a0, d0)) :
    triage kb text ao dov sev =
      Except.ok (triageCore kb (normText text)
        (resolveOverride ao a0) (resolveOverride dov d0) sev) ∧
    (∀ d2 : Int, 0 < d2 → resolveOverride (some d2) d0 = some d2) ∧
    (∀ a2 : Int, 0 < a2 → resolveOverride (some a2) a0 = some a2) ∧
    (∀ d2 : Int, d2 ≤ 0 → resolveOverride (some d2) d0 = Option.map Int.ofNat d0) ∧
    resolveOverride none d0 = Option.map Int.ofNat d0 := by
  refine ⟨triage_ok kb text ao dov sev a0 d0 hok, ?_, ?_, ?_, rfl⟩
  · intro d2 h2
    simp [resolveOverride, h2]
  · intro a2 h2
    simp [resolveOverride, h2]
  · intro d2 h2
    simp [resolveOverride, show ¬ (0 < d2) by omega]

/-- C5 witness: on "fever for 2 days" (extracted duration 2), a duration
override of 5 fully replaces the extracted value. -/
theorem c5_override_witness :
    triage KB "fever for 2 days".data none (some 5) none =
      Except.ok (triageCore KB (normText "fever for 2 days".data)
        (resolveOverride none none) (resolveOverride (some 5) (some 2)) none) ∧
    resolveOverride (some 5) (some 2) = some 5 :=
  ⟨(c5_override_replacement KB "fever for 2 days".data none (some 5) none
      none (some 2) rfl).1,
   (c5_override_replacement KB "fever for 2 days".data none (some 5) none
      none (some 2) rfl).2.1 5 (by decide)⟩

/-- C1 (amended): for every input whose numeric-looking tokens are all
plain decimal numerals (so that hint extraction returns instead of raising)
and whose normalised text contains a red-flag substring, `triage` returns
the Emergency decision — KB `emergency_msg` headline, routes
["Call 108", "Find nearest ER"], KB `emergency_general` advice, and reason
`red_flag:<rf>` where `<rf>` is the first matching red flag in list order
(the semantics of `List.find?`) — regardless of any other keywords, fever
conditions, or caller overrides also present. -/
theorem c1_red_flag (kb : String → KBVal) (text : List Char) (ao dov : Option Int)
    (sev : Option String) (a0 d0 : Option Nat) (rf : String)
    (hok : parse_age_and_duration (normText text) = Except.ok (a0, d0))
    (hrf : RED_FLAGS.find? (fun r => strHas (normText text) r.data) = some rf) :
    triage kb text ao dov sev =
      Except.ok ⟨"Emergency", kb "emergency_msg", ["Call 108", "Find nearest ER"],
        resolveOverride ao a0, resolveOverride dov d0, sev,
        kb "emergency_general", "red_flag:" ++ rf⟩ := by
  rw [triage_ok kb text ao dov sev a0 d0 hok,
    triageCore_red kb (normText text) _ _ sev rf hrf]

/-- C1 counterexample: "chest pain ²" contains the red flag "chest pain",
so the claim demands the Emergency decision, but `triage` raises — the
extractor hits the digit-category token "²" (line 126 `int(tok)` raises
`ValueError` in Python) before the red-flag gate runs. -/
theorem c1_counterexample :
    strHas (normText "chest pain ²".data) "chest pain".data = true ∧
    triage KB "chest pain ²".data none none none = Except.error () :=
  ⟨rfl, rfl⟩

/-- C1 witness: a red flag wins over overrides and mixed case. -/
theorem c1_red_flag_witness :
    triage KB "Sudden CHEST pain now".data (some 44) none (some "Severe") =
      Except.ok ⟨"Emergency", KB "emergency_msg", ["Call 108", "Find nearest ER"],
        some 44, none, some "Severe", KB "emergency_general",
        "red_flag:chest pain"⟩ :=
  c1_red_flag KB "Sudden CHEST pain now".data (some 44) none (some "Severe")
    none none "chest pain" rfl rfl

/-- C8 (amended): whenever `parse_age_and_duration` returns (that is, every
digit-category token of the text is a plain decimal numeral), the age
result is the last candidate, in scan order over the lower-cased tokens
(with `/` treated as whitespace), among numeric tokens `n` with
`0 < n < 120` whose 3-token window (clipped at the bounds) contains an age
keyword; and the duration result is the last candidate among numeric tokens
immediately followed by a token starting with "day".  Either result may be
absent. -/
theorem c8_parse_extraction (t : List Char) (a d : Option Nat)
    (hok : parse_age_and_duration t = Except.ok (a, d)) :
    a = age_spec t ∧ d = dur_spec t :=
  parseLoopS_ok (tokensOf t) none none none a d hok

/-- C8 counterexample: on "3 days ²" the claim's scan records duration
candidate 3 and returns it, but the code raises at the digit-category token
"²" and returns nothing. -/
theorem c8_counterexample :
    parse_age_and_duration "3 days ²".data = Except.error () ∧
    dur_spec "3 days ²".data = some 3 :=
  ⟨rfl, rfl⟩

/-- C8 witness: the later duration candidate (4) overwrites the earlier one
(2), and the age 30 is picked up from its "years" window. -/
theorem c8_parse_witness :
    parse_age_and_duration "I am 30 years old fever 2 days then 4 days".data =
      Except.ok (some 30, some 4) ∧
    some 30 = age_spec "I am 30 years old fever 2 days then 4 days".data ∧
    some 4 = dur_spec "I am 30 years old fever 2 days then 4 days".data :=
  ⟨rfl, c8_parse_extraction "I am 30 years old fever 2 days then 4 days".data
    (some 30) (some 4) rfl⟩

/-- C2 (amended): for inputs on which extraction returns and no red flag
matches, the fever branch is taken — observable as reason
`rule:fever_3_days_pediatric` or `rule:fever_3_days` — exactly when the
text contains "fever" and (a standalone "3"/"three" token occurs and the
text contains "day"/"days", or the resolved duration is at least 3).  In
that branch, a resolved age present and below 5 yields the Urgent pediatric
decision, and otherwise the Moderate fever decision. -/
theorem c2_fever_gate (kb : String → KBVal) (text : List Char)
    (ao dov : Option Int) (sev : Option String) (a0 d0 : Option Nat)
    (hok : parse_age_and_duration (normText text) = Except.ok (a0, d0))
    (hrf : RED_FLAGS.find? (fun r => strHas (normText text) r.data) = none) :
    ((strHas (normText text) "fever".data = true ∧
        ((reSearch3orThree (normText text) = true ∧
            (strHas (normText text) "day".data = true ∨
             strHas (normText text) "days".data = true)) ∨
          ∃ dd : Int, resolveOverride dov d0 = some dd ∧ 3 ≤ dd))
      ↔ (Except.map Decision.reason (triage kb text ao dov sev) =
            Except.ok "rule:fever_3_days_pediatric" ∨
         Except.map Decision.reason (triage kb text ao dov sev) =
            Except.ok "rule:fever_3_days"))
    ∧ (fever_cond (normText text) (resolveOverride dov d0) = true →
        (∃ a : Int, resolveOverride ao a0 = some a ∧ a < 5) →
        triage kb text ao dov sev = Except.ok ⟨"Urgent",
          KBVal.str "Child with fever ≥3 days should be seen today.",
          ["Find nearby clinic", "Call clinic"],
          resolveOverride ao a0, resolveOverride dov d0, sev,
          kb "urgent_pediatric_fever3", "rule:fever_3_days_pediatric"⟩)
    ∧ (fever_cond (normText text) (resolveOverride dov d0) = true →
        (∀ a : Int, resolveOverride ao a0 = some a → 5 ≤ a) →
        triage kb text ao dov sev = Except.ok ⟨"Moderate", kb "fever_3d_msg",
          ["Open telemedicine", "Find nearby clinic"],
          resolveOverride ao a0, resolveOverride dov d0, sev,
          kb "moderate_fever3", "rule:fever_3_days"⟩) := by
  have htr := triage_ok kb text ao dov sev a0 d0 hok
  refine ⟨?_, ?_, ?_⟩
  · rw [htr, ← fever_cond_iff (normText text) (resolveOverride dov d0)]
    constructor
    · intro hf
      by_cases hp : pediatricAge (resolveOverride ao a0) = true
      · left
        rw [triageCore_fever_ped kb (normText text) (resolveOverride ao a0)
          (resolveOverride dov d0) sev hrf hf hp]
        rfl
      · rw [Bool.not_eq_true] at hp
        right
        rw [triageCore_fever_mod kb (normText text) (resolveOverride ao a0)
          (resolveOverride dov d0) sev hrf hf hp]
        rfl
    · intro hre
      by_contra hnf
      rw [Bool.not_eq_true] at hnf
      have hne := triageCore_reason_not_fever kb (normText text)
        (resolveOverride ao a0) (resolveOverride dov d0) sev hrf hnf
      cases hre with
      | inl h => exact hne.1 (Except.ok.inj h)
      | inr h => exact hne.2 (Except.ok.inj h)
  · intro hf hped
    rw [htr, triageCore_fever_ped kb (normText text) (resolveOverride ao a0)
      (resolveOverride dov d0) sev hrf hf ((pediatricAge_true_iff _).mpr hped)]
  · intro hf hnoped
    rw [htr, triageCore_fever_mod kb (normText text) (resolveOverride ao a0)
      (resolveOverride dov d0) sev hrf hf ((pediatricAge_false_iff _).mpr hnoped)]

/-- C2 counterexample: "fever three days ²" has no red flag and satisfies
the claim's fever condition (standalone "three" plus "days"), so the claim
demands a fever-branch decision, but `triage` raises at the digit-category
token "²" before the gate runs. -/
theorem c2_counterexample :
    RED_FLAGS.find?
      (fun r => strHas (normText "fever three days ²".data) r.data) = none ∧
    strHas (normText "fever three days ²".data) "fever".data = true ∧
    reSearch3orThree (normText "fever three days ²".data) = true ∧
    strHas (normText "fever three days ²".data) "days".data = true ∧
    triage KB "fever three days ²".data none none none = Except.error () :=
  ⟨rfl, rfl, rfl, rfl, rfl⟩

/-- C2 witness: an age override of 3 sends "Fever for 3 days" down the
pediatric branch. -/
theorem c2_fever_witness :
    triage KB "Fever for 3 days".data (some 3) none none =
      Except.ok ⟨"Urgent",
        KBVal.str "Child with fever ≥3 days should be seen today.",
        ["Find nearby clinic", "Call clinic"], some 3, some 3, none,
        KB "urgent_pediatric_fever3", "rule:fever_3_days_pediatric"⟩ :=
  (c2_fever_gate KB "Fever for 3 days".data (some 3) none none none (some 3)
    rfl rfl).2.1 rfl ⟨3, rfl, by decide⟩

/-- C3 (amended): for inputs on which extraction returns, with no red flag
and the fever gate off, the first keyword of the ordered tier scan that is
contained in the normalised text determines the decision: reason is
`rule:<tier>:<keyword>`, and each tier returns its fixed
headline/routes/advice bundle, with self-care advice keyword-specific.
A text containing any emergency-tier keyword always resolves to the
emergency level. -/
theorem c3_keyword_scan (kb : String → KBVal) (text : List Char)
    (ao dov : Option Int) (sev : Option String) (a0 d0 : Option Nat)
    (level key : String)
    (hok : parse_age_and_duration (normText text) = Except.ok (a0, d0))
    (hrf : RED_FLAGS.find? (fun r => strHas (normText text) r.data) = none)
    (hfev : fever_cond (normText text) (resolveOverride dov d0) = false)
    (hfind : findRule (normText text) ordered_rules = some (level, key)) :
    strHas (normText text) key.data = true
    ∧ Except.map Decision.reason (triage kb text ao dov sev) =
        Except.ok ("rule:" ++ level ++ ":" ++ key)
    ∧ (level = "emergency" → triage kb text ao dov sev =
        Except.ok ⟨"Emergency", kb "emergency_msg", ["Call 108", "Find nearest ER"],
          resolveOverride ao a0, resolveOverride dov d0, sev,
          kb "emergency_general", "rule:" ++ level ++ ":" ++ key⟩)
    ∧ (level = "urgent" → triage kb text ao dov sev =
        Except.ok ⟨"Urgent", KBVal.str "See a doctor today for further evaluation.",
          ["Find nearby clinic", "Call clinic"],
          resolveOverride ao a0, resolveOverride dov d0, sev,
          kb "urgent_general", "rule:" ++ level ++ ":" ++ key⟩)
    ∧ (level = "moderate" → triage kb text ao dov sev =
        Except.ok ⟨"Moderate",
          KBVal.str "Consider a clinic/telemedicine visit within 24–48h.",
          ["Open telemedicine", "Find nearby clinic"],
          resolveOverride ao a0, resolveOverride dov d0, sev,
          kb "moderate_general", "rule:" ++ level ++ ":" ++ key⟩)
    ∧ (level = "selfcare" → triage kb text ao dov sev =
        Except.ok ⟨"Self-care", KBVal.str "Safe to try self‑care now.",
          ["Self-care tips"],
          resolveOverride ao a0, resolveOverride dov d0, sev,
          (if key = "headache" then kb "selfcare_headache" else kb "selfcare_cough"),
          "rule:" ++ level ++ ":" ++ key⟩)
    ∧ ((∃ ek ∈ ["chest pain", "difficulty breathing", "severe bleeding",
          "unconscious", "weakness"], strHas (normText text) ek.data = true) →
        level = "emergency") := by
  have htr := triage_ok kb text ao dov sev a0 d0 hok
  have hcore := triageCore_rule kb (normText text) (resolveOverride ao a0)
    (resolveOverride dov d0) sev level key hrf hfev hfind
  refine ⟨findRule_key_strHas _ _ _ _ hfind, ?_, ?_, ?_, ?_, ?_, ?_⟩
  · rw [htr, hcore]
    show Except.ok (ruleDecision kb level key _ _ sev).reason = _
    rw [ruleDecision_reason]
  · intro hlv
    subst hlv
    rw [htr, hcore]
    unfold ruleDecision
    rw [if_pos rfl]
  · intro hlv
    subst hlv
    rw [htr, hcore]
    unfold ruleDecision
    rw [if_neg (by decide), if_pos rfl]
  · intro hlv
    subst hlv
    rw [htr, hcore]
    unfold ruleDecision
    rw [if_neg (by decide), if_neg (by decide), if_pos rfl]
  · intro hlv
    subst hlv
    rw [htr, hcore]
    unfold ruleDecision
    rw [if_neg (by decide), if_neg (by decide), if_neg (by decide)]
  · rintro ⟨ek, hmem, hek⟩
    obtain ⟨k0, hk0⟩ := findRule_emergency (normText text) ek hmem hek
    rw [hfind] at hk0
    exact congrArg Prod.fst (Option.some.inj hk0)

/-- C3 counterexample: "sore throat ²" has no red flag, the fever gate is
off, and the first matching keyword is ("moderate", "sore throat"), so the
claim demands the Moderate decision, but `triage` raises at the
digit-category token "²". -/
theorem c3_counterexample :
    RED_FLAGS.find?
      (fun r => strHas (normText "sore throat ²".data) r.data) = none ∧
    fever_cond (normText "sore throat ²".data) none = false ∧
    findRule (normText "sore throat ²".data) ordered_rules =
      some ("moderate", "sore throat") ∧
    triage KB "sore throat ²".data none none none = Except.error () :=
  ⟨rfl, rfl, rfl, rfl⟩

/-- C3 witness: "Mild headache since morning" resolves to the self-care
bundle with headache-specific advice. -/
theorem c3_keyword_witness :
    triage KB "Mild headache since morning".data none none none =
      Except.ok ⟨"Self-care", KBVal.str "Safe to try self‑care now.",
        ["Self-care tips"], none, none, none, KB "selfcare_headache",
        "rule:selfcare:headache"⟩ :=
  (c3_keyword_scan KB "Mild headache since morning".data none none none
    none none "selfcare" "headache" rfl rfl rfl rfl).2.2.2.2.2.1 rfl

/-- C4 (amended): for inputs on which extraction returns, with no red flag,
the fever gate off, and no keyword of any tier contained, `triage` returns
the Unknown fallback decision — KB `fallback_msg` headline, routes
["Open telemedicine", "Find nearby clinic"], an empty advice list, reason
"fallback" — a successful outcome, not an error; in particular
"feeling off idk" yields exactly that decision. -/
theorem c4_fallback (kb : String → KBVal) (text : List Char)
    (ao dov : Option Int) (sev : Option String) (a0 d0 : Option Nat)
    (hok : parse_age_and_duration (normText text) = Except.ok (a0, d0))
    (hrf : RED_FLAGS.find? (fun r => strHas (normText text) r.data) = none)
    (hfev : fever_cond (normText text) (resolveOverride dov d0) = false)
    (hfind : findRule (normText text) ordered_rules = none) :
    triage kb text ao dov sev =
      Except.ok ⟨"Unknown", kb "fallback_msg",
        ["Open telemedicine", "Find nearby clinic"],
        resolveOverride ao a0, resolveOverride dov d0, sev,
        KBVal.list [], "fallback"⟩
    ∧ (∀ kb2 : String → KBVal,
        triage kb2 "feeling off idk".data none none none =
          Except.ok ⟨"Unknown", kb2 "fallback_msg",
            ["Open telemedicine", "Find nearby clinic"],
            none, none, none, KBVal.list [], "fallback"⟩) := by
  refine ⟨?_, fun kb2 => rfl⟩
  rw [triage_ok kb text ao dov sev a0 d0 hok,
    triageCore_fallback kb (normText text) (resolveOverride ao a0)
      (resolveOverride dov d0) sev hrf hfev hfind]

/-- C4 counterexample: "idk ²" matches no red flag, no fever condition and
no keyword, so the claim demands the Unknown fallback decision, but
`triage` raises at the digit-category token "²" — unrecognized text is not
always a successful outcome. -/
theorem c4_counterexample :
    RED_FLAGS.find? (fun r => strHas (normText "idk ²".data) r.data) = none ∧
    fever_cond (normText "idk ²".data) none = false ∧
    findRule (normText "idk ²".data) ordered_rules = none ∧
    triage KB "idk ²".data none none none = Except.error () :=
  ⟨rfl, rfl, rfl, rfl⟩

/-- C4 witness: the spec's own example input. -/
theorem c4_fallback_witness :
    triage KB "feeling off idk".data none none none =
      Except.ok ⟨"Unknown", KB "fallback_msg",
        ["Open telemedicine", "Find nearby clinic"],
        none, none, none, KBVal.list [], "fallback"⟩ :=
  (c4_fallback KB "feeling off idk".data none none none none none
    rfl rfl rfl rfl).1

/-- C10 (amended): `triage` never consults the module-level `RULES` dict:
for inputs on which extraction returns that contain "bleeding" but match no
red flag (in particular not "severe bleeding"), no fever condition and no
keyword of the ordered lists, `triage` falls through to the Unknown
fallback decision even though `RULES` maps "bleeding" to Emergency. -/
theorem c10_rules_not_consulted (kb : String → KBVal) (text : List Char)
    (ao dov : Option Int) (sev : Option String) (a0 d0 : Option Nat)
    (hok : parse_age_and_duration (normText text) = Except.ok (a0, d0))
    (_hbleed : strHas (normText text) "bleeding".data = true)
    (hrf : RED_FLAGS.find? (fun r => strHas (normText text) r.data) = none)
    (hfev : fever_cond (normText text) (resolveOverride dov d0) = false)
    (hfind : findRule (normText text) ordered_rules = none) :
    triage kb text ao dov sev =
      Except.ok ⟨"Unknown", kb "fallback_msg",
        ["Open telemedicine", "Find nearby clinic"],
        resolveOverride ao a0, resolveOverride dov d0, sev,
        KBVal.list [], "fallback"⟩
    ∧ (RULES kb).lookup "bleeding" = some ("Emergency", kb "emergency_msg") := by
  refine ⟨?_, rfl⟩
  rw [triage_ok kb text ao dov sev a0 d0 hok,
    triageCore_fallback kb (normText text) (resolveOverride ao a0)
      (resolveOverride dov d0) sev hrf hfev hfind]

/-- C10 counterexample: "bleeding ²" contains "bleeding" and no red flag,
fever condition or keyword, so the claim demands the Unknown fallback
decision, but `triage` raises at the digit-category token "²". -/
theorem c10_counterexample :
    strHas (normText "bleeding ²".data) "bleeding".data = true ∧
    RED_FLAGS.find? (fun r => strHas (normText "bleeding ²".data) r.data) = none ∧
    findRule (normText "bleeding ²".data) ordered_rules = none ∧
    triage KB "bleeding ²".data none none none = Except.error () :=
  ⟨rfl, rfl, rfl, rfl⟩

/-- C10 witness: "bleeding slightly" falls through to the fallback even
though `RULES` maps "bleeding" to Emergency. -/
theorem c10_rules_witness :
    triage KB "bleeding slightly".data none none none =
      Except.ok ⟨"Unknown", KB "fallback_msg",
        ["Open telemedicine", "Find nearby clinic"],
        none, none, none, KBVal.list [], "fallback"⟩ ∧
    (RULES KB).lookup "bleeding" = some ("Emergency", KB "emergency_msg") :=
  ⟨(c10_rules_not_consulted KB "bleeding slightly".data none none none
      none none rfl rfl rfl rfl rfl).1,
   (c10_rules_not_consulted KB "bleeding slightly".data none none none
      none none rfl rfl rfl rfl rfl).2⟩

end HealthBuddy
